import Mathlib

/-!
Shallow embedding of `src/extension-chrome/app.js` (a browser-extension quote
calculator for payroll services) and verification of its specification claims.

Modelling conventions:
* JS numbers are modelled as `ℚ` (all arithmetic in the program is on small
  decimals; `NaN` is modelled as `none` in `Option ℚ`, with NaN-propagating
  `nanAdd`/`nanMul`).
* The `TARIFS` object literal is modelled as an association list in definition
  order (JS `Object.entries` iterates non-index string keys in insertion order).
* DOM reads/writes are dropped; each handler becomes a pure function on the
  explicit state `{lignes, ligneId}` or on its parsed inputs.
* JS `parseFloat` is modelled on decimal literals (optional sign, digits,
  optional fractional part, longest valid prefix, `none` when no prefix
  parses); the exponent form never arises from the number inputs involved.
-/

/-- A catalog entry of `TARIFS`: display label, unit price, unit suffix,
category. -/
structure Tarif where
  libelle : String
  tarif : ℚ
  unite : String
  cat : String
deriving DecidableEq, Repr

/-- The `TARIFS` object of `app.js` lines 1–40, in definition order. -/
def TARIFS : List (String × Tarif) := [
  ("AUD-001", ⟨"Audit réglementaire de paie", 120, "€/h", "Audit"⟩),
  ("MIS-001", ⟨"Mise en place dossier paie", 120, "€/h", "Audit"⟩),
  ("REP-001", ⟨"Reprise de données paie", 120, "€/h", "Audit"⟩),
  ("BUL-001", ⟨"Bulletin (1-20 sal.)", 20, "€/bul", "Bulletins"⟩),
  ("BUL-004", ⟨"Bulletin (+20 sal.)", 15, "€/bul", "Bulletins"⟩),
  ("ENV-001", ⟨"Envoi coffre-fort", 2, "€/sal", "Bulletins"⟩),
  ("ENV-002", ⟨"Envoi papier", 2, "€/sal", "Bulletins"⟩),
  ("ENT-001", ⟨"Entrée salarié", 15, "€/sal", "Gestion"⟩),
  ("STC-001", ⟨"Sortie salarié (STC)", 50, "€/sal", "Gestion"⟩),
  ("MED-001", ⟨"Affiliation médecine travail", 45, "€/soc", "Gestion"⟩),
  ("MUT-001", ⟨"Affiliation mutuelle", 45, "€/org", "Gestion"⟩),
  ("ATT-001", ⟨"Attestation maladie/AT", 20, "€/att", "Gestion"⟩),
  ("DAT-001", ⟨"Déclaration AT", 30, "€/déc", "Gestion"⟩),
  ("PRV-001", ⟨"Dossier prévoyance", 45, "€/dos", "Gestion"⟩),
  ("SIM-001", ⟨"Simulation salaire", 50, "€/sim", "Gestion"⟩),
  ("BTP-001", ⟨"Déclaration CP CI-BTP", 20, "€/sal", "BTP"⟩),
  ("BTP-002", ⟨"Chômage intempéries", 20, "€/sal", "BTP"⟩),
  ("BTP-003", ⟨"Radiation CI-BTP", 20, "€/sal", "BTP"⟩),
  ("CDI-001", ⟨"CDI", 150, "€/ctr", "Contrats"⟩),
  ("CDD-001", ⟨"CDD", 100, "€/ctr", "Contrats"⟩),
  ("SAI-001", ⟨"Contrat saisonnier", 120, "€/ctr", "Contrats"⟩),
  ("AVE-001", ⟨"Avenant (Nexus)", 70, "€/ave", "Contrats"⟩),
  ("AVE-002", ⟨"Avenant (externe)", 80, "€/ave", "Contrats"⟩),
  ("DUE-001", ⟨"DUE Prévoyance", 200, "€/doc", "DUE"⟩),
  ("DUE-002", ⟨"DUE Frais de santé", 200, "€/doc", "DUE"⟩),
  ("DUE-003", ⟨"DUE Retraite sup.", 200, "€/doc", "DUE"⟩),
  ("DUE-004", ⟨"DUE PPV", 275, "€/doc", "DUE"⟩),
  ("RUP-001", ⟨"Rupture conventionnelle", 350, "€/dos", "Ruptures"⟩),
  ("LIC-001", ⟨"Licenciement faute grave", 200, "€/dos", "Ruptures"⟩),
  ("LIC-002", ⟨"Abandon de poste", 170, "€/dos", "Ruptures"⟩),
  ("LIC-003", ⟨"Inaptitude", 500, "€/dos", "Ruptures"⟩),
  ("LIC-004", ⟨"Licenciement éco.", 750, "€/dos", "Ruptures"⟩),
  ("IND-001", ⟨"Indemnité retraite", 110, "€/calc", "Indemnités"⟩),
  ("IND-002", ⟨"Indemnité rup. conv.", 165, "€/calc", "Indemnités"⟩),
  ("IND-003", ⟨"Indemnité inaptitude", 220, "€/calc", "Indemnités"⟩),
  ("IND-004", ⟨"Indemnité lic. éco.", 330, "€/calc", "Indemnités"⟩),
  ("CON-001", ⟨"Conseil RH", 120, "€/h", "Autres"⟩),
  ("FOR-001", ⟨"Dossier OPCO", 150, "€/dos", "Autres"⟩)]

/-- The `FORFAIT_CONFIG` constant of `app.js` line 42. -/
structure ForfaitConfig where
  bulletinMoins20 : ℚ
  bulletinPlus20 : ℚ
  coffreFort : ℚ
  entree : ℚ
  sortie : ℚ
deriving DecidableEq, Repr

def FORFAIT_CONFIG : ForfaitConfig :=
  { bulletinMoins20 := 20, bulletinPlus20 := 15, coffreFort := 2, entree := 15, sortie := 50 }

/-- A line item of the quote builder: `{ id, ref, qte }` as pushed by
`addLigne` and edited by `updateLigne`.  `ref` and `qte` are the raw strings
held by the DOM inputs. -/
structure Ligne where
  id : ℕ
  ref : String
  qte : String
deriving DecidableEq, Repr

/-- Numeric value of a list of decimal digit characters. -/
def digitsToNat (ds : List Char) : ℕ :=
  ds.foldl (fun a c => 10 * a + (c.toNat - 48)) 0

/-- The sign and digit runs recognised by JS `parseFloat`: skip leading
whitespace, optional sign, longest prefix of the form `digits [. digits]`
(at least one digit); `none` when nothing parses. -/
def parseFloatParts (s : String) : Option (Bool × List Char × List Char) :=
  let cs := s.data.dropWhile (fun c => c.isWhitespace)
  let neg : Bool := match cs with
    | '-' :: _ => true
    | _ => false
  let cs1 : List Char := match cs with
    | '-' :: r => r
    | '+' :: r => r
    | _ => cs
  let intDs := cs1.takeWhile (fun c => c.isDigit)
  let rest := cs1.dropWhile (fun c => c.isDigit)
  let fracDs : List Char := match rest with
    | '.' :: r => r.takeWhile (fun c => c.isDigit)
    | _ => []
  if intDs = [] ∧ fracDs = [] then none
  else some (neg, intDs, fracDs)

/-- Model of JS `parseFloat` on the inputs that occur here: the numeric value
of the recognised prefix; `none` models the `NaN` result when nothing parses. -/
def parseFloat (s : String) : Option ℚ :=
  (parseFloatParts s).map (fun p =>
    (if p.1 then (-1 : ℚ) else 1) *
      ((digitsToNat p.2.1 : ℚ) + (digitsToNat p.2.2 : ℚ) / (10 : ℚ) ^ p.2.2.length))

/-- NaN-propagating addition on JS numbers (`none` = NaN). -/
def nanAdd : Option ℚ → Option ℚ → Option ℚ
  | some a, some b => some (a + b)
  | _, _ => none

/-- NaN-propagating multiplication on JS numbers (`none` = NaN). -/
def nanMul : Option ℚ → Option ℚ → Option ℚ
  | some a, some b => some (a * b)
  | _, _ => none

/-- `TARIFS[ref].tarif`, or 0 when the code is absent from the catalog. -/
def tarifDe (ref : String) : ℚ :=
  ((TARIFS.lookup ref).map Tarif.tarif).getD 0

/-- One step of the `reduce` in `calcTotal` (`app.js` line 81): a line
contributes only when `l.ref` and `l.qte` are truthy (nonempty) and
`TARIFS[l.ref]` exists; its contribution is `tarif * parseFloat(l.qte)`. -/
def calcLigneStep (sum : Option ℚ) (l : Ligne) : Option ℚ :=
  if l.ref ≠ "" ∧ l.qte ≠ "" ∧ (TARIFS.lookup l.ref).isSome then
    nanAdd sum (nanMul (some (tarifDe l.ref)) (parseFloat l.qte))
  else sum

/-- `calcTotal` (`app.js` lines 80–84): the reduce over the line items with
initial accumulator 0.  Result `none` models a NaN total. -/
def calcTotal (lignes : List Ligne) : Option ℚ :=
  lignes.foldl calcLigneStep (some 0)

/-- Stated from the spec wording of `computeTotal`, for comparison with
`calcTotal`: sum over all line items of (unit price of the service code, or 0
if the code is unset or unknown) × (the quantity, treated as 0 if unset or
unparseable). -/
def specLigneMontant (l : Ligne) : ℚ :=
  tarifDe l.ref * ((parseFloat l.qte).getD 0)

/-- Spec-side total: sum of `specLigneMontant` over the line items. -/
def specTotal (lignes : List Ligne) : ℚ :=
  (lignes.map specLigneMontant).sum

/-- The quote-builder state: the globals `lignes` and `ligneId` of
`app.js` lines 44–45. -/
structure EtatDevis where
  lignes : List Ligne
  ligneId : ℕ
deriving DecidableEq, Repr

/-- Initial state: `lignes = []`, `ligneId = 0`. -/
def etatInitial : EtatDevis := ⟨[], 0⟩

/-- `addLigne` (`app.js` line 57): increments the counter and pushes a fresh
line with empty `ref` and `qte`. -/
def addLigne (s : EtatDevis) : EtatDevis :=
  { lignes := s.lignes ++ [⟨s.ligneId + 1, "", ""⟩], ligneId := s.ligneId + 1 }

/-- `removeLigne` (`app.js` line 59): when more than one line exists, keep the
lines whose id differs; otherwise do nothing. -/
def removeLigne (id : ℕ) (s : EtatDevis) : EtatDevis :=
  if s.lignes.length > 1 then
    { s with lignes := s.lignes.filter (fun l => l.id ≠ id) }
  else s

/-- The two fields `updateLigne` can set: `'ref'` or `'qte'`. -/
inductive Champ
  | ref
  | qte
deriving DecidableEq, Repr

/-- `ligne[field] = value` for the two fields used by the program. -/
def setChamp (f : Champ) (v : String) (l : Ligne) : Ligne :=
  match f with
  | Champ.ref => { l with ref := v }
  | Champ.qte => { l with qte := v }

/-- Functional rendering of `lignes.find(...)` followed by in-place mutation:
the first line whose id matches has the field set; all others are unchanged;
no match leaves the list unchanged. -/
def updateLignes (id : ℕ) (f : Champ) (v : String) : List Ligne → List Ligne
  | [] => []
  | l :: ls => if l.id = id then setChamp f v l :: ls else l :: updateLignes id f v ls

/-- `updateLigne` (`app.js` line 61) on the state. -/
def updateLigne (id : ℕ) (f : Champ) (v : String) (s : EtatDevis) : EtatDevis :=
  { s with lignes := updateLignes id f v s.lignes }

/-- The quote-builder mutating operations reachable from the UI. -/
inductive Op
  | add
  | remove (id : ℕ)
  | update (id : ℕ) (f : Champ) (v : String)

/-- Apply one operation to the state. -/
def appliquer (s : EtatDevis) : Op → EtatDevis
  | Op.add => addLigne s
  | Op.remove id => removeLigne id s
  | Op.update id f v => updateLigne id f v s

/-- Run a finite sequence of operations. -/
def run (ops : List Op) (s : EtatDevis) : EtatDevis :=
  ops.foldl appliquer s

/-- Well-formedness of a quote-builder state, as stated by the data model:
line ids are pairwise distinct ("unique within the builder's lifetime") and
no id exceeds the counter ("monotonically assigned").  Every state the
program reaches satisfies this. -/
def BonEtat (s : EtatDevis) : Prop :=
  s.lignes.Pairwise (fun a b => a.id ≠ b.id) ∧ ∀ l ∈ s.lignes, l.id ≤ s.ligneId

instance (s : EtatDevis) : Decidable (BonEtat s) := by
  unfold BonEtat; infer_instance

/-- Per-bulletin price (`app.js` line 91): tier-A rate for `n ≤ 20`, tier-B
rate otherwise. -/
def prixBul (n : ℤ) : ℚ :=
  if n ≤ 20 then FORFAIT_CONFIG.bulletinMoins20 else FORFAIT_CONFIG.bulletinPlus20

/-- The amounts computed and displayed by `calcForfait`. -/
structure ForfaitResult where
  prixBul : ℚ
  mBul : ℚ
  mCoffre : ℚ
  mIn : ℚ
  mOut : ℚ
  total : ℚ
  annuel : ℚ
deriving DecidableEq, Repr

/-- `calcForfait` (`app.js` lines 86–102) after its `parseInt`/checkbox reads:
inputs are the parsed headcount, hires, exits (integers) and the secure
delivery flag.  `annuel` is the displayed `total * 12`. -/
def calcForfait (n entrees sorties : ℤ) (coffre : Bool) : ForfaitResult :=
  let pb : ℚ := prixBul n
  let mBul : ℚ := (n : ℚ) * pb
  let mCoffre : ℚ := if coffre then (n : ℚ) * FORFAIT_CONFIG.coffreFort else 0
  let mIn : ℚ := (entrees : ℚ) * FORFAIT_CONFIG.entree
  let mOut : ℚ := (sorties : ℚ) * FORFAIT_CONFIG.sortie
  let total : ℚ := mBul + mCoffre + mIn + mOut
  ⟨pb, mBul, mCoffre, mIn, mOut, total, total * 12⟩

/-- A row of the price grid: `{ ref, ...t }` as pushed by `renderGrille`. -/
structure GrilleItem where
  ref : String
  libelle : String
  tarif : ℚ
  unite : String
  cat : String
deriving DecidableEq, Repr

/-- `{ ref, ...t }`. -/
def grilleItem (ref : String) (t : Tarif) : GrilleItem :=
  ⟨ref, t.libelle, t.tarif, t.unite, t.cat⟩

/-- One step of the grouping loop in `renderGrille` (`app.js` line 106):
if the category key exists, push onto its list, else create it at the end
(JS object insertion order). -/
def ajouteCat (acc : List (String × List GrilleItem)) (p : String × Tarif) :
    List (String × List GrilleItem) :=
  if (acc.lookup p.2.cat).isSome then
    acc.map (fun g => if g.1 = p.2.cat then (g.1, g.2 ++ [grilleItem p.1 p.2]) else g)
  else acc ++ [(p.2.cat, [grilleItem p.1 p.2])]

/-- The grouping of catalog entries by category built by `renderGrille`
(`app.js` lines 104–106); the spec calls it `groupByCategory`. -/
def groupByCategory (ts : List (String × Tarif)) : List (String × List GrilleItem) :=
  ts.foldl ajouteCat []

/-! ### Helper lemmas about the quote-builder operations -/

lemma setChamp_id (f : Champ) (v : String) (l : Ligne) : (setChamp f v l).id = l.id := by
  cases f <;> rfl

lemma updateLignes_map_id (id : ℕ) (f : Champ) (v : String) :
    ∀ ls : List Ligne, (updateLignes id f v ls).map Ligne.id = ls.map Ligne.id
  | [] => rfl
  | l :: ls => by
    by_cases h : l.id = id <;>
      simp [updateLignes, h, setChamp_id, updateLignes_map_id id f v ls]

lemma updateLignes_length (id : ℕ) (f : Champ) (v : String) (ls : List Ligne) :
    (updateLignes id f v ls).length = ls.length := by
  have h := congrArg List.length (updateLignes_map_id id f v ls)
  simpa using h

lemma filter_ne_nil_of_pairwise (id : ℕ) :
    ∀ ls : List Ligne, ls.Pairwise (fun a b => a.id ≠ b.id) → 1 < ls.length →
      ls.filter (fun l => l.id ≠ id) ≠ []
  | [], _, hlen => by simp at hlen
  | [_], _, hlen => by simp at hlen
  | a :: b :: rest, h, _ => by
    by_cases ha : a.id = id
    · have hab : a.id ≠ b.id := (List.pairwise_cons.mp h).1 b (by simp)
      have hb : ¬ b.id = id := fun hbb => hab (ha.trans hbb.symm)
      simp [List.filter_cons, ha, hb]
    · simp [List.filter_cons, ha]

lemma bonEtat_addLigne {s : EtatDevis} (h : BonEtat s) : BonEtat (addLigne s) := by
  obtain ⟨hp, hb⟩ := h
  constructor
  · apply List.pairwise_append.mpr
    refine ⟨hp, by simp, ?_⟩
    intro a ha b hbmem
    simp only [List.mem_singleton] at hbmem
    subst hbmem
    have := hb a ha
    simp only []
    omega
  · intro l hl
    simp only [addLigne, List.mem_append, List.mem_singleton] at hl
    rcases hl with hl | hl
    · exact le_trans (hb l hl) (Nat.le_succ _)
    · subst hl; exact le_refl _

lemma bonEtat_removeLigne (id : ℕ) {s : EtatDevis} (h : BonEtat s) :
    BonEtat (removeLigne id s) := by
  obtain ⟨hp, hb⟩ := h
  unfold removeLigne
  split
  · exact ⟨List.Pairwise.sublist (List.filter_sublist _) hp,
      fun l hl => hb l (List.mem_of_mem_filter hl)⟩
  · exact ⟨hp, hb⟩

lemma bonEtat_updateLigne (id : ℕ) (f : Champ) (v : String) {s : EtatDevis}
    (h : BonEtat s) : BonEtat (updateLigne id f v s) := by
  obtain ⟨hp, hb⟩ := h
  have hm := updateLignes_map_id id f v s.lignes
  constructor
  · have h1 : (s.lignes.map Ligne.id).Pairwise (· ≠ ·) := List.pairwise_map.mpr hp
    rw [← hm] at h1
    exact List.pairwise_map.mp h1
  · intro l hl
    have : l.id ∈ (updateLignes id f v s.lignes).map Ligne.id :=
      List.mem_map.mpr ⟨l, hl, rfl⟩
    rw [hm] at this
    obtain ⟨x, hx, hxid⟩ := List.mem_map.mp this
    exact hxid ▸ hb x hx

lemma bonEtat_appliquer (op : Op) {s : EtatDevis} (h : BonEtat s) :
    BonEtat (appliquer s op) := by
  cases op with
  | add => exact bonEtat_addLigne h
  | remove id => exact bonEtat_removeLigne id h
  | update id f v => exact bonEtat_updateLigne id f v h

lemma lignes_ne_nil_appliquer (op : Op) {s : EtatDevis} (h : BonEtat s)
    (hne : s.lignes ≠ []) : (appliquer s op).lignes ≠ [] := by
  cases op with
  | add => simp [appliquer, addLigne]
  | remove id =>
    show (removeLigne id s).lignes ≠ []
    unfold removeLigne
    split
    · exact filter_ne_nil_of_pairwise id s.lignes h.1 (by assumption)
    · exact hne
  | update id f v =>
    show (updateLignes id f v s.lignes) ≠ []
    intro hc
    apply hne
    have := updateLignes_map_id id f v s.lignes
    rw [hc] at this
    exact List.map_eq_nil_iff.mp this.symm

lemma bonEtat_run : ∀ (ops : List Op) (s : EtatDevis), BonEtat s → BonEtat (run ops s)
  | [], _, h => h
  | op :: ops, s, h => bonEtat_run ops (appliquer s op) (bonEtat_appliquer op h)

lemma run_ne_nil : ∀ (ops : List Op) (s : EtatDevis), BonEtat s → s.lignes ≠ [] →
    (run ops s).lignes ≠ []
  | [], _, _, hne => hne
  | op :: ops, s, h, hne =>
    run_ne_nil ops (appliquer s op) (bonEtat_appliquer op h)
      (lignes_ne_nil_appliquer op h hne)

lemma ligneId_appliquer (op : Op) (s : EtatDevis) : s.ligneId ≤ (appliquer s op).ligneId := by
  cases op with
  | add => exact Nat.le_succ _
  | remove id =>
    show s.ligneId ≤ (removeLigne id s).ligneId
    unfold removeLigne
    split <;> exact le_refl _
  | update id f v => exact le_refl _

lemma ligneId_run : ∀ (ops : List Op) (s : EtatDevis), s.ligneId ≤ (run ops s).ligneId
  | [], _ => le_refl _
  | op :: ops, s => le_trans (ligneId_appliquer op s) (ligneId_run ops (appliquer s op))

lemma run_append (ops₁ ops₂ : List Op) (s : EtatDevis) :
    run (ops₁ ++ ops₂) s = run ops₂ (run ops₁ s) := by
  simp [run, List.foldl_append]

/-! ### Helper lemmas about `calcTotal` -/

lemma parseFloat_empty : parseFloat "" = none := by
  have h : parseFloatParts "" = none := by decide
  rw [parseFloat, h]
  rfl

lemma parseFloat_three : parseFloat "3" = some 3 := by
  have h : parseFloatParts "3" = some (false, ['3'], []) := by decide
  have hd : digitsToNat ['3'] = 3 := by decide
  have hd0 : digitsToNat ([] : List Char) = 0 := rfl
  rw [parseFloat, h]
  simp [hd, hd0]

lemma tarifDe_empty : tarifDe "" = 0 := by decide

lemma tarifDe_of_lookup_none {ref : String} (h : TARIFS.lookup ref = none) :
    tarifDe ref = 0 := by
  unfold tarifDe; rw [h]; rfl

lemma specTotal_cons (l : Ligne) (ls : List Ligne) :
    specTotal (l :: ls) = specLigneMontant l + specTotal ls := by
  simp [specTotal]

lemma calcTotal_foldl :
    ∀ lignes : List Ligne, (∀ l ∈ lignes, l.qte = "" ∨ (parseFloat l.qte).isSome) →
      ∀ a : ℚ, List.foldl calcLigneStep (some a) lignes = some (a + specTotal lignes)
  | [], _, a => by simp [specTotal]
  | l :: ls, h, a => by
    have hl := h l (by simp)
    have hls : ∀ x ∈ ls, x.qte = "" ∨ (parseFloat x.qte).isSome :=
      fun x hx => h x (by simp [hx])
    rw [List.foldl_cons]
    by_cases hc : l.ref ≠ "" ∧ l.qte ≠ "" ∧ (TARIFS.lookup l.ref).isSome
    · rcases hl with hq | hq
      · exact absurd hq hc.2.1
      · obtain ⟨q, hq'⟩ := Option.isSome_iff_exists.mp hq
        have hstep : calcLigneStep (some a) l = some (a + tarifDe l.ref * q) := by
          unfold calcLigneStep
          rw [if_pos hc, hq']
          rfl
        have hm : specLigneMontant l = tarifDe l.ref * q := by
          unfold specLigneMontant; rw [hq']; rfl
        rw [hstep, calcTotal_foldl ls hls (a + tarifDe l.ref * q), specTotal_cons, hm]
        congr 1
        ring
    · have hstep : calcLigneStep (some a) l = some a := by
        unfold calcLigneStep
        rw [if_neg hc]
      have hzero : specLigneMontant l = 0 := by
        unfold specLigneMontant
        by_cases hr : l.ref = ""
        · rw [hr, tarifDe_empty, zero_mul]
        · by_cases hq : l.qte = ""
          · rw [hq, parseFloat_empty]; simp
          · have hk : ¬ (TARIFS.lookup l.ref).isSome := fun hk => hc ⟨hr, hq, hk⟩
            rw [tarifDe_of_lookup_none (Option.not_isSome_iff_eq_none.mp hk), zero_mul]
      rw [hstep, calcTotal_foldl ls hls a, specTotal_cons, hzero, zero_add]

lemma nanAdd_right_comm (s x y : Option ℚ) :
    nanAdd (nanAdd s x) y = nanAdd (nanAdd s y) x := by
  rcases s with _ | a <;> rcases x with _ | b <;> rcases y with _ | c <;>
    simp only [nanAdd]
  rw [add_right_comm]

lemma calcLigneStep_comm (s : Option ℚ) (a b : Ligne) :
    calcLigneStep (calcLigneStep s a) b = calcLigneStep (calcLigneStep s b) a := by
  unfold calcLigneStep
  split_ifs <;> first
    | rfl
    | exact nanAdd_right_comm s (nanMul (some (tarifDe a.ref)) (parseFloat a.qte))
        (nanMul (some (tarifDe b.ref)) (parseFloat b.qte))

/-! ### The claims -/

/-- Claim C1, counterexample to the statement as written: on the quote state
with the single line `{code: BUL-001, qty: "abc"}` the code's `calcTotal`
yields NaN (`tarif * parseFloat("abc")` is NaN and propagates through the
sum), whereas the claimed formula treats the unparseable quantity as 0 and
yields 0. -/
theorem claim_C1_counterexample :
    calcTotal [⟨1, "BUL-001", "abc"⟩] = none ∧
    specTotal [⟨1, "BUL-001", "abc"⟩] = 0 ∧
    calcTotal [⟨1, "BUL-001", "abc"⟩] ≠ some (specTotal [⟨1, "BUL-001", "abc"⟩]) := by
  have hnone : calcTotal [⟨1, "BUL-001", "abc"⟩] = none := by decide
  have habc : parseFloat "abc" = none := by
    have h : parseFloatParts "abc" = none := by decide
    rw [parseFloat, h]
    rfl
  refine ⟨hnone, ?_, ?_⟩
  · simp [specTotal, specLigneMontant, habc]
  · rw [hnone]
    exact fun h => Option.noConfusion h

/-- Claim C1 as amended: for every quote state in which each line's quantity
is either unset (empty) or parseable as a number — which holds for every
state reachable through the app's `type=number` inputs — `calcTotal` returns
the sum over all line items of (the unit price of the line's service code, or
0 if the code is unset or unknown in the catalog) times (the line's quantity,
with an unset quantity treated as 0); in particular a line item with empty
code and empty quantity contributes 0, and a quote consisting of one such
line has total 0. -/
theorem claim_C1_amended :
    (∀ lignes : List Ligne, (∀ l ∈ lignes, l.qte = "" ∨ (parseFloat l.qte).isSome) →
      calcTotal lignes = some (specTotal lignes)) ∧
    calcTotal [⟨1, "", ""⟩] = some 0 := by
  constructor
  · intro lignes h
    have hf := calcTotal_foldl lignes h 0
    rw [zero_add] at hf
    exact hf
  · decide

/-- Witness for C1: the amended theorem applied to the concrete quote
`[{BUL-001, "3"}, {unset, unset}]`, whose total is 20 × 3 = 60. -/
theorem claim_C1_witness :
    calcTotal [⟨1, "BUL-001", "3"⟩, ⟨2, "", ""⟩]
        = some (specTotal [⟨1, "BUL-001", "3"⟩, ⟨2, "", ""⟩]) ∧
    specTotal [⟨1, "BUL-001", "3"⟩, ⟨2, "", ""⟩] = 60 :=
  ⟨claim_C1_amended.1 [⟨1, "BUL-001", "3"⟩, ⟨2, "", ""⟩] (by decide), by
    have hb : tarifDe "BUL-001" = 20 := by decide
    simp [specTotal, specLigneMontant, parseFloat_three, parseFloat_empty,
      tarifDe_empty, hb]
    norm_num⟩

/-- Claim C2: the package estimator's per-bulletin price is the tier-A rate
(20) when the headcount is at most 20 and the tier-B rate (15) otherwise; in
particular `n = 20` uses tier-A and `n = 21` uses tier-B. -/
theorem claim_C2 :
    (∀ n : ℤ, prixBul n = if n ≤ 20 then (20 : ℚ) else 15) ∧
    prixBul 20 = 20 ∧ prixBul 21 = 15 :=
  ⟨fun _ => rfl, by decide, by decide⟩

/-- Claim C3: for nonnegative headcount, hires and exits, the monthly total
of `calcForfait` is the sum of all four components (bulletins, secure
delivery if checked, hires, exits) regardless of display inclusion, annual is
monthly × 12, and the spec's worked example (25, 2, 1, secure) yields
bulletins 375, secure 50, hires 30, exits 50, monthly 505, annual 6060. -/
theorem claim_C3 :
    (∀ (n entrees sorties : ℤ) (coffre : Bool), 0 ≤ n → 0 ≤ entrees → 0 ≤ sorties →
      (calcForfait n entrees sorties coffre).total
          = (n : ℚ) * prixBul n + (if coffre then (n : ℚ) * 2 else 0)
            + (entrees : ℚ) * 15 + (sorties : ℚ) * 50 ∧
      (calcForfait n entrees sorties coffre).annuel
          = (calcForfait n entrees sorties coffre).total * 12) ∧
    calcForfait 25 2 1 true = ⟨15, 375, 50, 30, 50, 505, 6060⟩ :=
  ⟨fun _ _ _ _ _ _ _ => ⟨rfl, rfl⟩, by
    norm_num [calcForfait, prixBul, FORFAIT_CONFIG, ForfaitResult.mk.injEq]⟩

/-- Witness for C3: the component/total equations instantiated at the spec's
worked example `headcount=25, hires=2, exits=1, secureDelivery=true`. -/
theorem claim_C3_witness :
    (calcForfait 25 2 1 true).total
        = ((25 : ℤ) : ℚ) * prixBul 25 + (if true then ((25 : ℤ) : ℚ) * 2 else 0)
          + ((2 : ℤ) : ℚ) * 15 + ((1 : ℤ) : ℚ) * 50 ∧
    (calcForfait 25 2 1 true).annuel = (calcForfait 25 2 1 true).total * 12 :=
  claim_C3.1 25 2 1 true (by decide) (by decide) (by decide)

/-- Claim C7: `calcTotal` is invariant under permutation of the line items
(NaN-propagating addition is still commutative and associative, so this holds
even on states with unparseable quantities). -/
theorem claim_C7 (l₁ l₂ : List Ligne) (h : l₁.Perm l₂) : calcTotal l₁ = calcTotal l₂ :=
  h.foldl_eq' (fun x _ y _ z => calcLigneStep_comm z x y) (some 0)

/-- Witness for C7: swapping the two lines of a concrete quote leaves the
total unchanged. -/
theorem claim_C7_witness :
    calcTotal [⟨1, "BUL-001", "3"⟩, ⟨2, "STC-001", "1"⟩]
      = calcTotal [⟨2, "STC-001", "1"⟩, ⟨1, "BUL-001", "3"⟩] :=
  claim_C7 _ _ (List.Perm.swap _ _ _)

/-- Claim C10: negative parsed headcounts are not rejected: for `n < 0` the
tier test `n ≤ 20` selects the tier-A rate 20, the bulletins component
`n × 20` is negative, and with no other counts the monthly and annual totals
are negative. -/
theorem claim_C10 :
    ∀ (n entrees sorties : ℤ) (coffre : Bool), n < 0 →
      prixBul n = 20 ∧
      (calcForfait n entrees sorties coffre).mBul = (n : ℚ) * 20 ∧
      (calcForfait n entrees sorties coffre).mBul < 0 ∧
      (calcForfait n 0 0 false).total < 0 ∧
      (calcForfait n 0 0 false).annuel < 0 := by
  intro n entrees sorties coffre hn
  have h20 : prixBul n = 20 := by
    unfold prixBul FORFAIT_CONFIG
    rw [if_pos (by omega)]
  have hnq : (n : ℚ) < 0 := by exact_mod_cast hn
  have hmul : (n : ℚ) * 20 < 0 := mul_neg_of_neg_of_pos hnq (by norm_num)
  refine ⟨h20, ?_, ?_, ?_, ?_⟩
  · show (n : ℚ) * prixBul n = (n : ℚ) * 20
    rw [h20]
  · show (n : ℚ) * prixBul n < 0
    rw [h20]; exact hmul
  · show (n : ℚ) * prixBul n + 0 + (0 : ℤ) * 15 + (0 : ℤ) * 50 < 0
    rw [h20]; push_cast; linarith
  · show ((n : ℚ) * prixBul n + 0 + (0 : ℤ) * 15 + (0 : ℤ) * 50) * 12 < 0
    rw [h20]; push_cast; linarith

/-- Witness for C10: headcount −1 gives tier-A price 20, bulletins −20,
and negative monthly and annual totals. -/
theorem claim_C10_witness :
    prixBul (-1) = 20 ∧
    (calcForfait (-1) 0 0 false).mBul = ((-1 : ℤ) : ℚ) * 20 ∧
    (calcForfait (-1) 0 0 false).mBul < 0 ∧
    (calcForfait (-1) 0 0 false).total < 0 ∧
    (calcForfait (-1) 0 0 false).annuel < 0 :=
  claim_C10 (-1) 0 0 false (by decide)

lemma updateLignes_id_of_not_mem (id : ℕ) (f : Champ) (v : String) :
    ∀ ls : List Ligne, (∀ l ∈ ls, l.id ≠ id) → updateLignes id f v ls = ls
  | [], _ => rfl
  | l :: ls, h => by
    have hl : l.id ≠ id := h l (by simp)
    simp only [updateLignes, if_neg hl]
    rw [updateLignes_id_of_not_mem id f v ls (fun x hx => h x (by simp [hx]))]

lemma updateLignes_first (id : ℕ) (f : Champ) (v : String) :
    ∀ (pre : List Ligne) (l : Ligne) (post : List Ligne),
      (∀ x ∈ pre, x.id ≠ id) → l.id = id →
      updateLignes id f v (pre ++ l :: post) = pre ++ setChamp f v l :: post
  | [], l, post, _, hid => by
    simp only [List.nil_append, updateLignes, if_pos hid]
  | p :: pre, l, post, hpre, hid => by
    have hp : p.id ≠ id := hpre p (by simp)
    simp only [List.cons_append, updateLignes, if_neg hp]
    exact congrArg (List.cons p)
      (updateLignes_first id f v pre l post (fun x hx => hpre x (by simp [hx])) hid)

/-- Claim C4, counterexample to the statement as written: because
`removeLigne` filters out all lines carrying the given id, the `length > 1`
guard does not keep arbitrary states non-empty.  A state with two lines
sharing id 1 (violating the data model's id uniqueness) is emptied by
`removeLigne 1`; and a state whose counter lags behind its ids (violating
monotonic assignment) reaches such a duplicate-id state by one `addLigne`
and is then emptied, even though its ids start out pairwise distinct. -/
theorem claim_C4_counterexample :
    ((⟨[⟨1, "a", "1"⟩, ⟨1, "b", "2"⟩], 2⟩ : EtatDevis).lignes ≠ [] ∧
      (run [Op.remove 1] ⟨[⟨1, "a", "1"⟩, ⟨1, "b", "2"⟩], 2⟩).lignes = []) ∧
    ((⟨[⟨5, "", ""⟩], 4⟩ : EtatDevis).lignes.Pairwise (fun a b => a.id ≠ b.id) ∧
      (⟨[⟨5, "", ""⟩], 4⟩ : EtatDevis).lignes ≠ [] ∧
      (run [Op.add, Op.remove 5] ⟨[⟨5, "", ""⟩], 4⟩).lignes = []) := by
  decide

/-- Claim C4 as amended: starting from any state satisfying the data model's
invariants (pairwise-distinct line ids, none exceeding the id counter) with
at least one line item — which includes every state the program reaches —
after any finite sequence of `addLigne`, `removeLigne` and `updateLigne`
calls the line-item list is non-empty; and `removeLigne` is a no-op whenever
at most one line item exists. -/
theorem claim_C4_amended :
    (∀ (id : ℕ) (s : EtatDevis), ¬ s.lignes.length > 1 → removeLigne id s = s) ∧
    (∀ s : EtatDevis, BonEtat s → s.lignes ≠ [] →
      ∀ ops : List Op, (run ops s).lignes ≠ []) := by
  constructor
  · intro id s h
    unfold removeLigne
    rw [if_neg h]
  · intro s hs hne ops
    exact run_ne_nil ops s hs hne

/-- Witness for C4: from the app's state right after startup (one empty
line, counter 1), removing the only line, adding one, then removing line 2
leaves the list non-empty. -/
theorem claim_C4_witness :
    (run [Op.remove 1, Op.add, Op.remove 2] ⟨[⟨1, "", ""⟩], 1⟩).lignes ≠ [] :=
  claim_C4_amended.2 ⟨[⟨1, "", ""⟩], 1⟩ (by decide) (by decide) _

/-- Claim C5: `updateLigne` with an id matching no line leaves the state
(and so the whole line-item list) unchanged; with a matching id it replaces
the first matching line by the same line with only the named field set
(`setChamp` changes exactly the named field and keeps id and the other
field), while every other line, the list's length and the order are
unchanged. -/
theorem claim_C5 :
    ∀ (id : ℕ) (f : Champ) (v : String) (s : EtatDevis),
      ((∀ l ∈ s.lignes, l.id ≠ id) → updateLigne id f v s = s) ∧
      (∀ (pre : List Ligne) (l : Ligne) (post : List Ligne),
        s.lignes = pre ++ l :: post → (∀ x ∈ pre, x.id ≠ id) → l.id = id →
        (updateLigne id f v s).lignes = pre ++ setChamp f v l :: post) ∧
      (updateLigne id f v s).lignes.length = s.lignes.length ∧
      (∀ l : Ligne, setChamp Champ.ref v l = ⟨l.id, v, l.qte⟩ ∧
        setChamp Champ.qte v l = ⟨l.id, l.ref, v⟩) := by
  intro id f v s
  refine ⟨?_, ?_, updateLignes_length id f v s.lignes, fun l => ⟨rfl, rfl⟩⟩
  · intro hall
    show ({ s with lignes := updateLignes id f v s.lignes } : EtatDevis) = s
    rw [updateLignes_id_of_not_mem id f v s.lignes hall]
  · intro pre l post hsplit hpre hid
    show updateLignes id f v s.lignes = pre ++ setChamp f v l :: post
    rw [hsplit]
    exact updateLignes_first id f v pre l post hpre hid

/-- Witness for C5: updating an unknown id 7 in a one-line state is a no-op,
and updating line 1's code in the two-line state changes only that field of
that line. -/
theorem claim_C5_witness :
    updateLigne 7 Champ.qte "4" ⟨[⟨1, "", ""⟩], 1⟩ = ⟨[⟨1, "", ""⟩], 1⟩ ∧
    (updateLigne 1 Champ.ref "BUL-001" ⟨[⟨1, "", ""⟩, ⟨2, "", ""⟩], 2⟩).lignes
      = [⟨1, "BUL-001", ""⟩, ⟨2, "", ""⟩] := by
  constructor
  · exact (claim_C5 7 Champ.qte "4" ⟨[⟨1, "", ""⟩], 1⟩).1 (by decide)
  · have h := (claim_C5 1 Champ.ref "BUL-001" ⟨[⟨1, "", ""⟩, ⟨2, "", ""⟩], 2⟩).2.1
      [] ⟨1, "", ""⟩ [⟨2, "", ""⟩] (by decide) (by decide) (by decide)
    simpa using h

/-- Claim C8: `addLigne` appends to the end of the list exactly one new line
item with empty service code, empty quantity, and id equal to the
incremented counter; along any operation sequence from the initial state
every line id is at most the current counter and the counter never
decreases, so each new id `counter + 1` strictly exceeds every id assigned
before it; consequently all line ids are pairwise distinct. -/
theorem claim_C8 :
    (∀ s : EtatDevis,
      addLigne s = ⟨s.lignes ++ [⟨s.ligneId + 1, "", ""⟩], s.ligneId + 1⟩) ∧
    (∀ ops : List Op,
      ∀ l ∈ (run ops etatInitial).lignes, l.id ≤ (run ops etatInitial).ligneId) ∧
    (∀ ops₁ ops₂ : List Op,
      (run ops₁ etatInitial).ligneId ≤ (run (ops₁ ++ ops₂) etatInitial).ligneId) ∧
    (∀ ops : List Op,
      (run ops etatInitial).lignes.Pairwise (fun a b => a.id ≠ b.id)) := by
  refine ⟨fun _ => rfl, ?_, ?_, ?_⟩
  · intro ops l hl
    exact (bonEtat_run ops etatInitial (by decide)).2 l hl
  · intro ops₁ ops₂
    rw [run_append]
    exact ligneId_run ops₂ _
  · intro ops
    exact (bonEtat_run ops etatInitial (by decide)).1

/-- Witness for C8: after one `addLigne` from the initial state the sole
line's id 1 is at most the counter 1. -/
theorem claim_C8_witness :
    (⟨1, "", ""⟩ : Ligne).id ≤ (run [Op.add] etatInitial).ligneId :=
  claim_C8.2.1 [Op.add] ⟨1, "", ""⟩ (by decide)

/-- Claim C9, counterexample to the statement as written: in a three-line
state where two lines share id 1 (violating the data model's id uniqueness),
`removeLigne 1` removes both matching lines, not exactly one. -/
theorem claim_C9_counterexample :
    (⟨[⟨1, "a", "1"⟩, ⟨1, "b", "2"⟩, ⟨2, "", ""⟩], 2⟩ : EtatDevis).lignes.length = 3 ∧
    (removeLigne 1 ⟨[⟨1, "a", "1"⟩, ⟨1, "b", "2"⟩, ⟨2, "", ""⟩], 2⟩).lignes
      = [⟨2, "", ""⟩] := by
  decide

/-- Claim C9 as amended: for every state with more than one line item,
`removeLigne` with an id matching no line leaves the state unchanged; and
when the ids are pairwise distinct (as the data model requires and as in
every reachable state), removing a matching id removes exactly that line
while all remaining lines keep their contents and relative order. -/
theorem claim_C9_amended :
    ∀ (s : EtatDevis) (id : ℕ), s.lignes.length > 1 →
      ((∀ l ∈ s.lignes, l.id ≠ id) → removeLigne id s = s) ∧
      (s.lignes.Pairwise (fun a b => a.id ≠ b.id) →
        ∀ (pre : List Ligne) (l : Ligne) (post : List Ligne),
          s.lignes = pre ++ l :: post → l.id = id →
          (removeLigne id s).lignes = pre ++ post) := by
  intro s id hlen
  constructor
  · intro hall
    unfold removeLigne
    rw [if_pos hlen]
    have hf : s.lignes.filter (fun l => l.id ≠ id) = s.lignes :=
      List.filter_eq_self.mpr (fun a ha => by simpa using hall a ha)
    rw [hf]
  · intro hp pre l post hsplit hid
    unfold removeLigne
    rw [if_pos hlen]
    show s.lignes.filter (fun l => l.id ≠ id) = pre ++ post
    rw [hsplit] at hp ⊢
    rw [List.filter_append]
    rcases List.pairwise_append.mp hp with ⟨-, hcons, hcross⟩
    have hkeepPre : pre.filter (fun x => x.id ≠ id) = pre :=
      List.filter_eq_self.mpr (fun a ha => by
        have hne := hcross a ha l (by simp)
        simpa using fun h => hne (h.trans hid.symm))
    rw [hkeepPre]
    simp [List.filter_cons, hid]
    intro a ha h
    exact (List.pairwise_cons.mp hcons).1 a ha (hid.trans h.symm)

/-- Witness for C9: in the two-line state with ids 1 and 2, removing id 2
removes exactly that line; removing the unknown id 3 is a no-op. -/
theorem claim_C9_witness :
    (removeLigne 2 ⟨[⟨1, "", ""⟩, ⟨2, "", ""⟩], 2⟩).lignes = [⟨1, "", ""⟩] ∧
    removeLigne 3 ⟨[⟨1, "", ""⟩, ⟨2, "", ""⟩], 2⟩ = ⟨[⟨1, "", ""⟩, ⟨2, "", ""⟩], 2⟩ := by
  constructor
  · have h := (claim_C9_amended ⟨[⟨1, "", ""⟩, ⟨2, "", ""⟩], 2⟩ 2 (by decide)).2
      (by decide) [⟨1, "", ""⟩] ⟨2, "", ""⟩ [] (by decide) (by decide)
    simpa using h
  · exact (claim_C9_amended ⟨[⟨1, "", ""⟩, ⟨2, "", ""⟩], 2⟩ 3 (by decide)).1 (by decide)

set_option maxRecDepth 8000 in
/-- Claim C6: grouping the catalog by category as the grid renderer does
yields the categories in first-seen order of the catalog's definition order;
each group named `c` holds exactly the catalog entries whose category is
`c`, in catalog definition order; and the concatenation of all groups is
exactly the catalog's entry list. -/
theorem claim_C6 :
    (groupByCategory TARIFS).map Prod.fst
        = ["Audit", "Bulletins", "Gestion", "BTP", "Contrats", "DUE",
           "Ruptures", "Indemnités", "Autres"] ∧
    (∀ g ∈ groupByCategory TARIFS,
      g.2 = (TARIFS.filter (fun p => p.2.cat = g.1)).map (fun p => grilleItem p.1 p.2)) ∧
    ((groupByCategory TARIFS).flatMap fun g => g.2)
        = TARIFS.map (fun p => grilleItem p.1 p.2) := by
  decide

set_option maxRecDepth 8000 in
/-- Witness for C6: the "Autres" group holds exactly the catalog's two
"Autres" entries, in definition order. -/
theorem claim_C6_witness :
    (("Autres", [grilleItem "CON-001" ⟨"Conseil RH", 120, "€/h", "Autres"⟩,
        grilleItem "FOR-001" ⟨"Dossier OPCO", 150, "€/dos", "Autres"⟩])
          : String × List GrilleItem).2
      = (TARIFS.filter (fun p => p.2.cat = "Autres")).map (fun p => grilleItem p.1 p.2) :=
  claim_C6.2.1
    ("Autres", [grilleItem "CON-001" ⟨"Conseil RH", 120, "€/h", "Autres"⟩,
      grilleItem "FOR-001" ⟨"Dossier OPCO", 150, "€/dos", "Autres"⟩])
    (by decide)
